import Mathlib

/-!
Shallow embedding of `examples/np_semantic_segmentation/feature_extraction.py`.

The file contains four independent feature adapters:
* `NLTKCollocations` — bigram association scores over precomputed score tables,
* `Wikidata` — knowledge-base existence via an HTTP SPARQL query,
* `Word2Vec` — word-embedding vectors and pairwise similarity,
* `Wordnet` — lexical-database (synset) existence.

Modelling conventions:
* Numeric score values (floats produced by external libraries, only passed
  through by this code and compared against the sentinels `0` and `-1`) are
  modelled as `Int`; the code performs no arithmetic on them.
* External resources are parameters: the word2vec model is a record of a
  vocabulary, a vector table and a similarity function; the HTTP transport is a
  function from a URL to a response or a transport error; WordNet is a function
  from a lemma name to its synset list.
* Python exceptions are modelled with `Except`; a `defaultdict` subscript is a
  total operation that inserts the default value on a missing key.
-/

namespace FeatureExtraction

/-- Python `s.split(" ")` (split on every single space character): accumulator
`acc` holds the reversed characters of the current field. Adjacent separators
and leading/trailing separators produce empty fields, and `"".split(" ")`
is `[""]`, exactly as in Python. -/
def splitSpaceAux : List Char → List Char → List String
  | [], acc => [String.mk acc.reverse]
  | c :: cs, acc =>
      if c = ' ' then String.mk acc.reverse :: splitSpaceAux cs []
      else splitSpaceAux cs (c :: acc)

/-- Python `phrase.split(" ")`. -/
def pySplitSpace (s : String) : List String :=
  splitSpaceAux s.data []

/-- Python `candidates.extend(candidates[0])` (lines 77 and 223 of the source):
`list.extend` iterates its argument, and iterating a *string* yields its
characters, so the characters of the first token are appended as one-character
strings (the word itself is NOT appended a second time). `candidates` is never
empty here because `split` always returns at least one field. -/
def extendByChars (candidates : List String) : List String :=
  match candidates with
  | [] => []
  | w :: _ => candidates ++ w.data.map (fun c => String.mk [c])

/-- Both scorers normalize the token list the same way: split on spaces, and
if fewer than two tokens result, run `candidates.extend(candidates[0])`. -/
def normalizeCandidates (phrase : String) : List String :=
  let candidates := pySplitSpace phrase
  if candidates.length < 2 then extendByChars candidates else candidates

/-- A bigram score table: insertion-ordered association list from a key tuple
(`tuple(candidates)`, of arbitrary arity, since lookups may use tuples of any
length) to the list of scores appended for that key. -/
abbrev BigramDict := List (List String × List Int)

/-- Association-list lookup: the value of the first entry whose key matches. -/
def dictFind : BigramDict → List String → Option (List Int)
  | [], _ => none
  | (k, v) :: d, key => if k = key then some v else dictFind d key

/-- Lookup with the `defaultdict(list)` default. -/
def dictFindD (d : BigramDict) (key : List String) : List Int :=
  (dictFind d key).getD []

/-- `defaultdict(list).__getitem__`: a present key returns its value and leaves
the dict unchanged; a missing key is *inserted* (at the end, per Python dict
insertion order) with the default `[]`, which is also returned. -/
def dictGetItem (d : BigramDict) (key : List String) : List Int × BigramDict :=
  match dictFind d key with
  | some v => (v, d)
  | none => ([], d ++ [(key, [])])

/-- `bigram_dict[key[0], key[1]].append(scores)` in `build_bigram_score_dict`:
getitem (inserting `[]` on a miss), then append the score to the stored list. -/
def dictAppendScore (d : BigramDict) (key : List String) (s : Int) : BigramDict :=
  match dictFind d key with
  | some _ => d.map (fun e => if e.1 = key then (e.1, e.2 ++ [s]) else e)
  | none => d ++ [(key, [s])]

/-- `NLTKCollocations.build_bigram_score_dict`: fold the scored bigrams
`(w1, w2), score` into a `defaultdict(list)`. -/
def build_bigram_score_dict (scored_bigrams : List ((String × String) × Int)) :
    BigramDict :=
  scored_bigrams.foldl (fun d kv => dictAppendScore d [kv.1.1, kv.1.2] kv.2) []

/-- The state of an `NLTKCollocations` instance after construction: the three
score tables built by `build_bigram_score_dict`. -/
structure NLTKCollocations where
  likelihood_ration_dict : BigramDict
  chi_sq_dict : BigramDict
  pmi_dict : BigramDict
  deriving DecidableEq

/-- Python exceptions relevant to this module. -/
inductive PyExc where
  | keyError
  | indexError
  deriving DecidableEq

/-- A `defaultdict` subscript written in the exception monad: it never raises
`KeyError` (a missing key is inserted instead), so the operation is total. -/
def dictGetItemExc (d : BigramDict) (key : List String) :
    Except PyExc (List Int × BigramDict) :=
  Except.ok (dictGetItem d key)

/-- The `try` body of `get_pmi_score`: look the candidate tuple up in
`pmi_dict`, append its first stored score (or 0 when the stored list is empty),
then the same against `chi_sq_dict`. Returns the response list together with
the two (possibly grown) dicts. -/
def get_pmi_score_try (pmi chi : BigramDict) (candidates : List String) :
    Except PyExc (List Int × BigramDict × BigramDict) := do
  let pr ← dictGetItemExc pmi candidates
  let e1 : Int := if pr.1.isEmpty then 0 else pr.1.headD 0
  let cr ← dictGetItemExc chi candidates
  let e2 : Int := if cr.1.isEmpty then 0 else cr.1.headD 0
  Except.ok ([e1, e2], pr.2, cr.2)

/-- `NLTKCollocations.get_pmi_score`: normalize the phrase into a candidate
tuple, run the `try` body; the `except KeyError` handler would answer `[0, 0]`
and leave the state alone (the handler is proved unreachable below, so the
response list it would build is never observed). -/
def get_pmi_score (st : NLTKCollocations) (phrase : String) :
    List Int × NLTKCollocations :=
  match get_pmi_score_try st.pmi_dict st.chi_sq_dict (normalizeCandidates phrase) with
  | Except.ok (response_list, pmi, chi) =>
      (response_list, { st with pmi_dict := pmi, chi_sq_dict := chi })
  | Except.error _ => ([0, 0], st)

/-- A transport-level failure raised by `requests.get` (connection error,
timeout, …): not an HTTP status, but a Python exception. -/
inductive TransportError where
  | mk (msg : String)
  deriving DecidableEq

/-- The part of a `requests` response the code inspects: the HTTP status code
and the raw body (`r.content`, bytes modelled as a string). -/
structure HttpResponse where
  status_code : Nat
  content : String
  deriving DecidableEq

/-- The URL built by `Wikidata.has_item` (lines 151-158): the phrase is
interpolated directly into the SPARQL query text, no escaping. -/
def chr_url (phrase : String) : String :=
  "https://query.wikidata.org/sparql?query=\n                        SELECT ?item ?lable\n                        WHERE\n                        \x7b\n                            ?item ?label \x27" ++
    phrase ++
    "\x27@en .\n            SERVICE wikibase:label \x7b bd:serviceParam wikibase:language \"en\". \x7d\n                        \x7d\n                        &format = JSON"

/-- The fixed "empty bindings" sentinel body (`empty_result`, lines 160-162):
the byte string the endpoint returns when the query matches nothing. -/
def empty_result : String :=
  "\x7b\n  \"head\" : \x7b\n    \"vars\" : [ \"item\", \"lable\" ]\n  \x7d,\n  \"results\" : \x7b\n    \"bindings\" : [ ]\n  \x7d\n\x7d"

/-- A `Wikidata` instance: the HTTP transport (`requests.get` with the
instance's headers and proxies already applied) as a function from the request
URL to either a response or a transport error. -/
structure Wikidata where
  requests_get : String → Except TransportError HttpResponse

/-- `Wikidata.has_item`: issue the GET; a transport error propagates (nothing
is caught). Positive exactly when status is 200 and the body differs from the
sentinel. -/
def has_item (wd : Wikidata) (phrase : String) : Except TransportError Bool := do
  let r ← wd.requests_get (chr_url phrase)
  if r.status_code = 200 ∧ empty_result ≠ r.content then
    Except.ok true
  else
    Except.ok false

/-- Python `set(candidates)`: deduplication; the iteration order of a Python
set is unspecified, and `List.dedup` fixes one valid enumeration of it. The
properties proved below are order-independent. -/
def pySet (l : List String) : List String :=
  l.dedup

/-- The loop of `find_wikidata_existence`: query candidates one at a time,
return 1 at the first positive, 0 after exhausting the list. -/
def find_loop (wd : Wikidata) : List String → Except TransportError Int
  | [] => Except.ok 0
  | c :: cs => do
      let b ← has_item wd c
      if b then Except.ok 1 else find_loop wd cs

/-- `Wikidata.find_wikidata_existence`: run the loop over `set(candidates)`. -/
def find_wikidata_existence (wd : Wikidata) (candidates : List String) :
    Except TransportError Int :=
  find_loop wd (pySet candidates)

/-- The loaded gensim `KeyedVectors` model: a vocabulary, a vector per
vocabulary word (`word_vec`), and a pairwise similarity (`similarity`, the
cosine similarity, which raises `KeyError` when a word is out of vocabulary —
modelled below in `modelSimilarity`). -/
structure W2VModel where
  vocab : List String
  word_vec : String → List Int
  similarity : String → String → Int

/-- A `Word2Vec` instance after construction: `self.model`, which is `None`
when `load_word2vec_model_from_path` returned a falsy model. -/
structure Word2Vec where
  model : Option W2VModel

/-- `Word2Vec.get_word_embedding`: with no model, or with the word out of
vocabulary, answer `np.full((300,), -1)`; otherwise the model's vector. -/
def get_word_embedding (w2v : Word2Vec) (word : String) : List Int :=
  match w2v.model with
  | none => List.replicate 300 (-1)
  | some model =>
      if word ∈ model.vocab then model.word_vec word
      else List.replicate 300 (-1)

/-- `self.model.similarity(w1, w2)`: gensim raises `KeyError` when either word
is missing from the vocabulary; otherwise it returns the similarity value. -/
def modelSimilarity (model : W2VModel) (w1 w2 : String) : Except PyExc Int :=
  if w1 ∈ model.vocab then
    if w2 ∈ model.vocab then Except.ok (model.similarity w1 w2)
    else Except.error PyExc.keyError
  else Except.error PyExc.keyError

/-- Python `candidates[i]`: raises `IndexError` out of range. -/
def pyIndex (l : List String) (i : Nat) : Except PyExc String :=
  match l.get? i with
  | some x => Except.ok x
  | none => Except.error PyExc.indexError

/-- The `try` body of `get_similarity_score`: `-1` when the model is absent,
otherwise evaluate `candidates[0]`, `candidates[1]` (left to right, either may
raise `IndexError`) and call the model's similarity. -/
def get_similarity_score_try (w2v : Word2Vec) (candidates : List String) :
    Except PyExc Int :=
  match w2v.model with
  | none => Except.ok (-1)
  | some model => do
      let w1 ← pyIndex candidates 0
      let w2 ← pyIndex candidates 1
      modelSimilarity model w1 w2

/-- `Word2Vec.get_similarity_score`: normalize the phrase (same split/extend as
the pmi scorer); more than two candidates answers `-1` before touching the
model; then the `try` body runs with `except KeyError: return -1` — any other
exception (in particular `IndexError`) propagates. -/
def get_similarity_score (w2v : Word2Vec) (noun_phrase : String) :
    Except PyExc Int :=
  let candidates := normalizeCandidates noun_phrase
  if candidates.length > 2 then Except.ok (-1)
  else
    match get_similarity_score_try w2v candidates with
    | Except.ok v => Except.ok v
    | Except.error PyExc.keyError => Except.ok (-1)
    | Except.error e => Except.error e

/-- A `Wordnet` instance: the lexical database as a function from a lemma name
to its synset list (synsets themselves are opaque; only emptiness matters). -/
structure Wordnet where
  synsets : String → List String

/-- Python `candidate.replace(" ", "_")`: every space character (not only the
internal ones) becomes an underscore; with a one-character pattern this is a
character-wise map. -/
def pyReplaceSpaceWithUnderscore (s : String) : String :=
  String.mk (s.data.map (fun c => if c = ' ' then '_' else c))

/-- `Wordnet.find_wordnet_existence`: walk the candidates in list order,
normalize spaces to underscores, answer 1 at the first candidate with a
nonempty synset list, 0 when none has one. -/
def find_wordnet_existence (wn : Wordnet) : List String → Int
  | [] => 0
  | candidate :: rest =>
      if wn.synsets (pyReplaceSpaceWithUnderscore candidate) ≠ [] then 1
      else find_wordnet_existence wn rest

/-! ### Dictionary lemmas -/

theorem dictFind_append_of_some (d₁ d₂ : BigramDict) (k : List String)
    (v : List Int) (h : dictFind d₁ k = some v) :
    dictFind (d₁ ++ d₂) k = some v := by
  induction d₁ with
  | nil => simp [dictFind] at h
  | cons e d ih =>
      obtain ⟨k', v'⟩ := e
      by_cases hk : k' = k
      · simp [dictFind, hk] at h ⊢
        exact h
      · simp [dictFind, hk] at h ⊢
        exact ih h

theorem dictFind_append_of_none (d₁ d₂ : BigramDict) (k : List String)
    (h : dictFind d₁ k = none) :
    dictFind (d₁ ++ d₂) k = dictFind d₂ k := by
  induction d₁ with
  | nil => rfl
  | cons e d ih =>
      obtain ⟨k', v'⟩ := e
      by_cases hk : k' = k
      · simp [dictFind, hk] at h
      · simp [dictFind, hk] at h ⊢
        exact ih h

/-- A `defaultdict` subscript never changes any defaulted lookup: a key it
inserts is bound to the default `[]`, which is what a missing key already
denotes. -/
theorem dictGetItem_findD (d : BigramDict) (k k' : List String) :
    dictFindD (dictGetItem d k).2 k' = dictFindD d k' := by
  unfold dictGetItem
  cases h : dictFind d k with
  | some v => rfl
  | none =>
      unfold dictFindD
      cases h' : dictFind d k' with
      | some v =>
          rw [dictFind_append_of_some d [(k, [])] k' v h']
      | none =>
          rw [dictFind_append_of_none d [(k, [])] k' h']
          by_cases hk : k = k' <;> simp [dictFind, hk]

/-- A `defaultdict` subscript only ever appends entries, all of them bound to
the default `[]`. -/
theorem dictGetItem_append (d : BigramDict) (k : List String) :
    ∃ t, (dictGetItem d k).2 = d ++ t ∧ ∀ e ∈ t, e.2 = ([] : List Int) := by
  unfold dictGetItem
  cases h : dictFind d k with
  | some v => exact ⟨[], by simp⟩
  | none => exact ⟨[(k, [])], by simp⟩

/-- `get_pmi_score`, evaluated: the `try` body always succeeds, so the result
is the two headline scores and the two dicts updated by their lookups. -/
theorem get_pmi_score_eq (st : NLTKCollocations) (phrase : String) :
    get_pmi_score st phrase =
      ([if (dictGetItem st.pmi_dict (normalizeCandidates phrase)).1.isEmpty
          then 0
          else (dictGetItem st.pmi_dict (normalizeCandidates phrase)).1.headD 0,
        if (dictGetItem st.chi_sq_dict (normalizeCandidates phrase)).1.isEmpty
          then 0
          else (dictGetItem st.chi_sq_dict (normalizeCandidates phrase)).1.headD 0],
       { st with
          pmi_dict := (dictGetItem st.pmi_dict (normalizeCandidates phrase)).2,
          chi_sq_dict := (dictGetItem st.chi_sq_dict (normalizeCandidates phrase)).2 }) :=
  rfl

/-! ### Claims about the bigram scorer -/

/-- Claim C10: the `except KeyError` branch of `get_pmi_score` is unreachable —
the score tables are `defaultdict(list)`, whose subscript returns `[]` for a
missing key instead of raising, so the `try` body always returns `Except.ok`
and the handler that would extend the response with `[0, 0]` never runs. -/
theorem pmi_keyerror_branch_unreachable (pmi chi : BigramDict)
    (candidates : List String) :
    ∃ r, get_pmi_score_try pmi chi candidates = Except.ok r :=
  ⟨_, rfl⟩

/-- Claim C10, witness: concrete instance of the unreachability statement. -/
theorem pmi_keyerror_branch_unreachable_witness :
    ∃ r, get_pmi_score_try [] [] ["a"] = Except.ok r :=
  pmi_keyerror_branch_unreachable [] [] ["a"]

/-- Claim C4: a two-token phrase whose pair is absent from both precomputed
tables scores `[0, 0]` (PMI then chi-square), with no error raised. -/
theorem pmi_missing_pair_scores_zero (st : NLTKCollocations)
    (phrase w1 w2 : String)
    (hsplit : pySplitSpace phrase = [w1, w2])
    (hp : dictFind st.pmi_dict [w1, w2] = none)
    (hc : dictFind st.chi_sq_dict [w1, w2] = none) :
    (get_pmi_score st phrase).1 = [0, 0] := by
  have hcand : normalizeCandidates phrase = [w1, w2] := by
    unfold normalizeCandidates
    rw [hsplit]
    rfl
  rw [get_pmi_score_eq, hcand]
  simp [dictGetItem, hp, hc]

/-- Claim C4, witness: with empty tables, the phrase "x y" scores `[0, 0]`. -/
theorem pmi_missing_pair_scores_zero_witness :
    (get_pmi_score ⟨[], [], []⟩ "x y").1 = [0, 0] :=
  pmi_missing_pair_scores_zero ⟨[], [], []⟩ "x y" "x" "y" rfl rfl rfl

/-- A state whose pmi table holds one bigram, for the frame-effect claims. -/
def st_mut : NLTKCollocations :=
  ⟨[], [], [(["a", "b"], [3])]⟩

/-- Claim C2, counterexample: looking up a phrase whose tuple is absent
*mutates* `pmi_dict` and `chi_sq_dict` — the `defaultdict` subscript inserts
the missing tuple with an empty list — so the tables are not left with the
same key set. -/
theorem pmi_tables_mutated_on_miss :
    (get_pmi_score st_mut "x y").2.pmi_dict ≠ st_mut.pmi_dict
    ∧ (get_pmi_score st_mut "x y").2.pmi_dict
        = [(["a", "b"], [3]), (["x", "y"], [])]
    ∧ (get_pmi_score st_mut "x y").2.chi_sq_dict = [(["x", "y"], [])] :=
  ⟨by decide, rfl, rfl⟩

/-- Claim C2 (amended): `get_pmi_score` never changes the likelihood-ratio
table, never changes the value of any defaulted lookup in the pmi or
chi-square tables, and only ever appends entries bound to the empty list to
those two tables (the `defaultdict` auto-insertion on a missing tuple), so
existing keys and values are preserved even though the key set can grow. -/
theorem pmi_tables_preserved_as_maps (st : NLTKCollocations) (phrase : String) :
    (get_pmi_score st phrase).2.likelihood_ration_dict = st.likelihood_ration_dict
    ∧ (∀ k, dictFindD (get_pmi_score st phrase).2.pmi_dict k
        = dictFindD st.pmi_dict k)
    ∧ (∀ k, dictFindD (get_pmi_score st phrase).2.chi_sq_dict k
        = dictFindD st.chi_sq_dict k)
    ∧ (∃ t, (get_pmi_score st phrase).2.pmi_dict = st.pmi_dict ++ t
        ∧ ∀ e ∈ t, e.2 = ([] : List Int))
    ∧ (∃ t, (get_pmi_score st phrase).2.chi_sq_dict = st.chi_sq_dict ++ t
        ∧ ∀ e ∈ t, e.2 = ([] : List Int)) := by
  rw [get_pmi_score_eq]
  exact ⟨rfl,
    fun k => dictGetItem_findD st.pmi_dict (normalizeCandidates phrase) k,
    fun k => dictGetItem_findD st.chi_sq_dict (normalizeCandidates phrase) k,
    dictGetItem_append st.pmi_dict (normalizeCandidates phrase),
    dictGetItem_append st.chi_sq_dict (normalizeCandidates phrase)⟩

/-- Claim C2 (amended), witness: an existing entry still yields its value
through the defaulted lookup after a mutating miss. -/
theorem pmi_tables_preserved_as_maps_witness :
    dictFindD (get_pmi_score st_mut "q r").2.pmi_dict ["a", "b"] = [3] := by
  rw [(pmi_tables_preserved_as_maps st_mut "q r").2.1 ["a", "b"]]
  rfl

/-! ### Claims about the embedding scorers -/

/-- A model that knows the word "ab", with similarity value 1, and a bigram
state holding the self-pair ("ab", "ab"): probes for the self-pairing claim. -/
def w2v_ab : Word2Vec :=
  ⟨some ⟨["ab"], fun _ => [2], fun _ _ => 1⟩⟩

def st_ab : NLTKCollocations :=
  ⟨[], [(["ab", "ab"], [7])], [(["ab", "ab"], [5])]⟩

/-- Claim C1, divergence: `candidates.extend(candidates[0])` appends the
*characters* of the single word, not the word itself, so "ab" normalizes to
["ab", "a", "b"] rather than ["ab", "ab"]. Hence the similarity scorer answers
-1 for "ab" while the explicit pair "ab ab" scores 1, and the bigram scorer
looks up the 3-tuple (missing, `[0, 0]`) while the pair "ab ab" scores
`[5, 7]`. Only one-character words are genuinely self-paired. -/
theorem singleword_selfpair_divergence :
    normalizeCandidates "ab" = ["ab", "a", "b"]
    ∧ get_similarity_score w2v_ab "ab" = Except.ok (-1)
    ∧ get_similarity_score w2v_ab "ab ab" = Except.ok 1
    ∧ (get_pmi_score st_ab "ab").1 = [0, 0]
    ∧ (get_pmi_score st_ab "ab ab").1 = [5, 7] :=
  ⟨rfl, rfl, rfl, rfl, rfl⟩

/-- Claim C3: a phrase splitting into more than two tokens scores -1 in the
similarity scorer, whatever the model is (the model is never consulted: the
result is uniform in it). -/
theorem similarity_more_than_two_tokens (w2v : Word2Vec) (noun_phrase : String)
    (h : 2 < (pySplitSpace noun_phrase).length) :
    get_similarity_score w2v noun_phrase = Except.ok (-1) := by
  have hc : normalizeCandidates noun_phrase = pySplitSpace noun_phrase := by
    unfold normalizeCandidates
    rw [if_neg (by omega)]
  unfold get_similarity_score
  rw [hc, if_pos h]

/-- Claim C3, witness: "a b c" scores -1 even with no model loaded. -/
theorem similarity_more_than_two_tokens_witness :
    get_similarity_score ⟨none⟩ "a b c" = Except.ok (-1) :=
  similarity_more_than_two_tokens ⟨none⟩ "a b c" (by decide)

/-- Claim C5: `get_word_embedding` answers the all-(-1) vector of length 300
when the model is absent or the word is out of vocabulary, and the model's
vector otherwise. -/
theorem get_word_embedding_spec (w2v : Word2Vec) (word : String) :
    (w2v.model = none → get_word_embedding w2v word = List.replicate 300 (-1))
    ∧ (∀ m, w2v.model = some m → word ∉ m.vocab →
        get_word_embedding w2v word = List.replicate 300 (-1))
    ∧ (∀ m, w2v.model = some m → word ∈ m.vocab →
        get_word_embedding w2v word = m.word_vec word) := by
  refine ⟨fun h => ?_, fun m h hm => ?_, fun m h hm => ?_⟩
  · simp [get_word_embedding, h]
  · simp [get_word_embedding, h, hm]
  · simp [get_word_embedding, h, hm]

/-- The model used by the embedding witness. -/
def w2v_dog_model : W2VModel :=
  ⟨["dog"], fun _ => [9], fun _ _ => 0⟩

def w2v_dog : Word2Vec :=
  ⟨some w2v_dog_model⟩

/-- Claim C5, witness: an in-vocabulary word gets its vector, an
out-of-vocabulary word gets the sentinel. -/
theorem get_word_embedding_spec_witness :
    get_word_embedding w2v_dog "dog" = [9]
    ∧ get_word_embedding w2v_dog "cat" = List.replicate 300 (-1) := by
  constructor
  · rw [(get_word_embedding_spec w2v_dog "dog").2.2 w2v_dog_model rfl (by decide)]
    rfl
  · exact (get_word_embedding_spec w2v_dog "cat").2.1 w2v_dog_model rfl (by decide)

/-- Claim C9: on the empty phrase with a loaded model, splitting yields the
single empty token, `extend` over the empty string appends nothing, so
`candidates[1]` raises `IndexError`, which the `except KeyError` handler does
not catch: the call produces no value. -/
theorem empty_phrase_index_error (model : W2VModel) :
    get_similarity_score ⟨some model⟩ "" = Except.error PyExc.indexError :=
  rfl

/-- Claim C9, witness: concrete model instance. -/
theorem empty_phrase_index_error_witness :
    get_similarity_score ⟨some ⟨[], fun _ => [], fun _ _ => 0⟩⟩ ""
      = Except.error PyExc.indexError :=
  empty_phrase_index_error ⟨[], fun _ => [], fun _ _ => 0⟩

/-! ### Claims about the knowledge-base checker -/

/-- A query outcome counts as positive exactly when it is a response (not a
transport error) with status 200 and a body different from the sentinel. -/
def positiveResponse (res : Except TransportError HttpResponse) : Prop :=
  ∃ r, res = Except.ok r ∧ r.status_code = 200 ∧ empty_result ≠ r.content

/-- The loop of `find_wikidata_existence`, characterized: when every queried
candidate gets a response, the loop answers 1 exactly when some candidate's
response is positive, and 0 exactly when none is. -/
theorem find_loop_spec (wd : Wikidata) (l : List String) :
    (∀ c ∈ l, ∃ r, wd.requests_get (chr_url c) = Except.ok r) →
    (find_loop wd l = Except.ok 1
        ↔ ∃ c ∈ l, positiveResponse (wd.requests_get (chr_url c)))
    ∧ (find_loop wd l = Except.ok 0
        ↔ ∀ c ∈ l, ¬ positiveResponse (wd.requests_get (chr_url c))) := by
  induction l with
  | nil =>
      intro _
      constructor <;> simp [find_loop]
  | cons c cs ih =>
      intro hok
      obtain ⟨r, hr⟩ := hok c (by simp)
      have hok' : ∀ x ∈ cs, ∃ r, wd.requests_get (chr_url x) = Except.ok r :=
        fun x hx => hok x (by simp [hx])
      have hpos : positiveResponse (wd.requests_get (chr_url c))
          ↔ (r.status_code = 200 ∧ empty_result ≠ r.content) := by
        rw [hr]
        constructor
        · rintro ⟨r', hr', hp⟩
          cases hr'
          exact hp
        · intro hp
          exact ⟨r, rfl, hp⟩
      have hhas : has_item wd c =
          if r.status_code = 200 ∧ empty_result ≠ r.content then Except.ok true
          else Except.ok false := by
        unfold has_item
        rw [hr]
        rfl
      have hstep : find_loop wd (c :: cs) =
          if r.status_code = 200 ∧ empty_result ≠ r.content then Except.ok 1
          else find_loop wd cs := by
        conv_lhs => rw [find_loop]
        rw [hhas]
        by_cases hp' : r.status_code = 200 ∧ empty_result ≠ r.content
        · rw [if_pos hp', if_pos hp']
          rfl
        · rw [if_neg hp', if_neg hp']
          rfl
      by_cases hp : r.status_code = 200 ∧ empty_result ≠ r.content
      · rw [hstep, if_pos hp]
        constructor
        · exact ⟨fun _ => ⟨c, by simp, hpos.mpr hp⟩, fun _ => rfl⟩
        · constructor
          · intro h10
            exact absurd h10 (by simp)
          · intro hall
            exact absurd (hpos.mpr hp) (hall c (by simp))
      · rw [hstep, if_neg hp]
        obtain ⟨ih1, ih0⟩ := ih hok'
        have hnc : ¬ positiveResponse (wd.requests_get (chr_url c)) :=
          fun hcp => hp (hpos.mp hcp)
        constructor
        · rw [ih1]
          constructor
          · rintro ⟨x, hx, hxp⟩
            exact ⟨x, by simp [hx], hxp⟩
          · rintro ⟨x, hx, hxp⟩
            rcases List.mem_cons.mp hx with h | h
            · exact absurd hxp (h ▸ hnc)
            · exact ⟨x, h, hxp⟩
        · rw [ih0]
          constructor
          · intro hall x hx
            rcases List.mem_cons.mp hx with h | h
            · exact h ▸ hnc
            · exact hall x h
          · intro hall x hx
            exact hall x (by simp [hx])

/-- Claim C6: `find_wikidata_existence` answers 1 exactly when some distinct
candidate's query is positive (status 200 and non-sentinel body), 0 exactly
when every distinct candidate misses; and the loop stops at the first positive
candidate (a positive head settles the answer, whatever the tail holds). -/
theorem wikidata_existence_spec (wd : Wikidata) (candidates : List String)
    (hok : ∀ c ∈ candidates, ∃ r, wd.requests_get (chr_url c) = Except.ok r) :
    (find_wikidata_existence wd candidates = Except.ok 1
        ↔ ∃ c ∈ candidates, positiveResponse (wd.requests_get (chr_url c)))
    ∧ (find_wikidata_existence wd candidates = Except.ok 0
        ↔ ∀ c ∈ candidates, ¬ positiveResponse (wd.requests_get (chr_url c)))
    ∧ (∀ c rest, has_item wd c = Except.ok true →
        find_loop wd (c :: rest) = Except.ok 1) := by
  have hok' : ∀ c ∈ pySet candidates,
      ∃ r, wd.requests_get (chr_url c) = Except.ok r :=
    fun c hc => hok c (List.mem_dedup.mp hc)
  obtain ⟨h1, h0⟩ := find_loop_spec wd (pySet candidates) hok'
  refine ⟨?_, ?_, fun c rest htrue => ?_⟩
  · unfold find_wikidata_existence
    rw [h1]
    constructor
    · rintro ⟨c, hc, hcp⟩
      exact ⟨c, List.mem_dedup.mp hc, hcp⟩
    · rintro ⟨c, hc, hcp⟩
      exact ⟨c, List.mem_dedup.mpr hc, hcp⟩
  · unfold find_wikidata_existence
    rw [h0]
    constructor
    · intro hall c hc
      exact hall c (List.mem_dedup.mpr hc)
    · intro hall c hc
      exact hall c (List.mem_dedup.mp hc)
  · unfold find_loop
    rw [htrue]
    rfl

/-- A transport that answers every query with a 200 response and a
non-sentinel body. -/
def wd_hit : Wikidata :=
  ⟨fun _ => Except.ok ⟨200, "data"⟩⟩

/-- Claim C6, witness: one candidate, positive response, answer 1. -/
theorem wikidata_existence_spec_witness :
    find_wikidata_existence wd_hit ["ab"] = Except.ok 1 :=
  ((wikidata_existence_spec wd_hit ["ab"]
      (fun _ _ => ⟨⟨200, "data"⟩, rfl⟩)).1).mpr
    ⟨"ab", by simp, ⟨200, "data"⟩, rfl, rfl, by decide⟩

/-- Claim C8: a transport error from `requests.get` is not caught anywhere:
`has_item` forwards it unchanged, and so does the loop of
`find_wikidata_existence` when it reaches the failing candidate (in particular
when that candidate comes first); no 0/1 result is produced. The transport is
consulted once per candidate by construction — there is no retry. -/
theorem transport_error_propagates (wd : Wikidata) (phrase : String)
    (e : TransportError)
    (h : wd.requests_get (chr_url phrase) = Except.error e) :
    has_item wd phrase = Except.error e
    ∧ (∀ rest, find_loop wd (phrase :: rest) = Except.error e)
    ∧ (∀ candidates rest, pySet candidates = phrase :: rest →
        find_wikidata_existence wd candidates = Except.error e) := by
  have h1 : has_item wd phrase = Except.error e := by
    unfold has_item
    rw [h]
    rfl
  refine ⟨h1, fun rest => ?_, fun candidates rest hset => ?_⟩
  · unfold find_loop
    rw [h1]
    rfl
  · unfold find_wikidata_existence
    rw [hset]
    unfold find_loop
    rw [h1]
    rfl

/-- A transport that is down for every query. -/
def wd_down : Wikidata :=
  ⟨fun _ => Except.error (TransportError.mk "connection refused")⟩

/-- Claim C8, witness: the error surfaces unchanged from both entry points. -/
theorem transport_error_propagates_witness :
    has_item wd_down "x" = Except.error (TransportError.mk "connection refused")
    ∧ find_wikidata_existence wd_down ["x"]
        = Except.error (TransportError.mk "connection refused") := by
  obtain ⟨h1, _, h3⟩ :=
    transport_error_propagates wd_down "x" (TransportError.mk "connection refused") rfl
  exact ⟨h1, h3 ["x"] [] (by decide)⟩

/-! ### Claims about the lexical-database checker -/

/-- The recursion of `find_wordnet_existence`, characterized: 1 exactly when
some candidate's underscore-normalized form has a synset, 0 exactly when none
has. -/
theorem find_wordnet_existence_iff (wn : Wordnet) (candidates : List String) :
    (find_wordnet_existence wn candidates = 1
        ↔ ∃ c ∈ candidates, wn.synsets (pyReplaceSpaceWithUnderscore c) ≠ [])
    ∧ (find_wordnet_existence wn candidates = 0
        ↔ ∀ c ∈ candidates, wn.synsets (pyReplaceSpaceWithUnderscore c) = []) := by
  induction candidates with
  | nil => constructor <;> simp [find_wordnet_existence]
  | cons c cs ih =>
      obtain ⟨ih1, ih0⟩ := ih
      by_cases hc : wn.synsets (pyReplaceSpaceWithUnderscore c) = []
      · have hstep : find_wordnet_existence wn (c :: cs)
            = find_wordnet_existence wn cs := by
          conv_lhs => rw [find_wordnet_existence]
          rw [if_neg (fun hne => hne hc)]
        rw [hstep]
        constructor
        · rw [ih1]
          constructor
          · rintro ⟨x, hx, hxp⟩
            exact ⟨x, by simp [hx], hxp⟩
          · rintro ⟨x, hx, hxp⟩
            rcases List.mem_cons.mp hx with h | h
            · exact absurd hxp (h ▸ fun hne => hne hc)
            · exact ⟨x, h, hxp⟩
        · rw [ih0]
          constructor
          · intro hall x hx
            rcases List.mem_cons.mp hx with h | h
            · exact h ▸ hc
            · exact hall x h
          · intro hall x hx
            exact hall x (by simp [hx])
      · have hstep : find_wordnet_existence wn (c :: cs) = 1 := by
          unfold find_wordnet_existence
          rw [if_pos hc]
        rw [hstep]
        constructor
        · exact ⟨fun _ => ⟨c, by simp, hc⟩, fun _ => rfl⟩
        · constructor
          · intro h10
            exact absurd h10 (by simp)
          · intro hall
            exact absurd (hall c (by simp)) hc

/-- Claim C7: `find_wordnet_existence` walks the candidates in list order,
querying each candidate with its spaces replaced by underscores; it answers 1
at the first candidate with a nonempty synset list (a hit at the head settles
the answer regardless of the rest), and 0 when no candidate has one. -/
theorem wordnet_existence_spec (wn : Wordnet) (candidates : List String) :
    (find_wordnet_existence wn candidates = 1
        ↔ ∃ c ∈ candidates, wn.synsets (pyReplaceSpaceWithUnderscore c) ≠ [])
    ∧ (find_wordnet_existence wn candidates = 0
        ↔ ∀ c ∈ candidates, wn.synsets (pyReplaceSpaceWithUnderscore c) = [])
    ∧ (∀ c rest, wn.synsets (pyReplaceSpaceWithUnderscore c) ≠ [] →
        find_wordnet_existence wn (c :: rest) = 1) := by
  obtain ⟨h1, h0⟩ := find_wordnet_existence_iff wn candidates
  refine ⟨h1, h0, fun c rest hne => ?_⟩
  unfold find_wordnet_existence
  rw [if_pos hne]

/-- A lexical database knowing exactly the entry "ab_cd". -/
def wn_abcd : Wordnet :=
  ⟨fun s => if s = "ab_cd" then ["sense"] else []⟩

/-- Claim C7, witness: the multi-word candidate "ab cd" is found through its
underscore-joined form "ab_cd". -/
theorem wordnet_existence_spec_witness :
    find_wordnet_existence wn_abcd ["xx", "ab cd"] = 1 :=
  ((wordnet_existence_spec wn_abcd ["xx", "ab cd"]).1).mpr
    ⟨"ab cd", by decide, by decide⟩

end FeatureExtraction
